import Mathlib

/-!
Verification of the FactChecker iterative verification engine.

This file gives a shallow embedding of the control flow of the
FactChecker pipeline (claim extraction → per-claim FIRE judge loop with
a web research sub-loop → aggregation) and proves the control-flow and
aggregation properties stated for it.

External effects are modelled explicitly:
- the reasoning Oracle (dspy calls) is a response stream: each call kind
  is a function from the call ordinal (or from its inputs) to a typed
  response record, so theorems quantify over every possible Oracle
  behaviour;
- the web-search call returns `Except String (List SearchResult)`, where
  `Except.error` models the `requests.HTTPError` raised by
  `SerperService.search` via `raise_for_status`;
- the page-scrape call returns a `ScrapedPage` record with a `success`
  flag, matching `FirecrawlService.scrape`, which catches its own
  exceptions and reports them in-band;
- Python falsiness of `Optional[str]` fields (`None` or `""`) is
  modelled by the empty string.

Loop bodies are translated statement by statement from
`fire_judge_module.py`, `research_agent_module.py`,
`aggregator_module.py` and `fact_checker_pipeline.py`; traces
(call counts, fetched URLs, research-invocation log) are added as pure
instrumentation so that budget and dedup properties can be stated.
-/

namespace FactChecker

/-- Response of one Oracle judgment call (`FireJudge` signature):
`verdict` is one of supported / not_supported / refuted or `""` for
Python `None`; `next_search` is a suggested query or `""` for `None`. -/
structure JudgeResponse where
  verdict : String
  next_search : String
deriving Repr, DecidableEq

/-- `JudgmentResult` dataclass from `data_types.py`. -/
structure JudgmentResult where
  claim : String
  verdict : String
  evidence_summary : String
  search_queries : List String
  iterations : Nat
deriving Repr, DecidableEq

/-- Result of one FIRE judge run together with instrumentation:
the number of Oracle judgment calls made and the log of queries the
research agent was invoked with, in order. -/
structure FireTrace where
  result : JudgmentResult
  judgeCalls : Nat
  researchLog : List String
deriving Repr, DecidableEq

/-- The mutable state of one FIRE run before a round:
`evidence` and `history` are the `evidence` / `search_history`
variables of `FireJudgeModule.forward`; `rlog` logs research-agent
invocations. -/
structure FireState where
  evidence : String
  history : List String
  rlog : List String
deriving Repr, DecidableEq

/-- Initial FIRE state: empty evidence, empty search history. -/
def initFireState : FireState := ⟨"", [], []⟩

namespace FireJudgeModule

/-- The loop of `FireJudgeModule.forward`, with the remaining round
budget as structural fuel: `fireLoop … fuel iter …` runs rounds
`iter, iter+1, …` while fuel lasts (the caller passes
`fuel = maxIter` and `iter = 0`, so `iter` is the Python `iteration`
variable).  `judge i` is the Oracle judgment response of round `i`
(0-based); `research claim query` is the string returned by
`ResearchAgentModule.forward` for that query.  Each round: a truthy
verdict returns immediately with `iterations = iter + 1`; else a
truthy, not-yet-tried `next_search` is appended to the history and
researched; else the state is unchanged.  Exhaustion returns
`not_supported` with `iterations = maxIter`.  `calls` counts judge
calls and `rlog` logs research invocations (pure instrumentation). -/
def fireLoop (judge : Nat → JudgeResponse) (research : String → String → String)
    (claim : String) (maxIter : Nat) :
    Nat → Nat → String → List String → Nat → List String → FireTrace
  | 0, _iter, evidence, history, calls, rlog =>
      ⟨⟨claim, "not_supported", evidence, history, maxIter⟩, calls, rlog⟩
  | fuel + 1, iter, evidence, history, calls, rlog =>
    if (judge iter).verdict != "" then
      ⟨⟨claim, (judge iter).verdict, evidence, history, iter + 1⟩, calls + 1, rlog⟩
    else if (judge iter).next_search != "" &&
        !(history.contains (judge iter).next_search) then
      fireLoop judge research claim maxIter fuel (iter + 1)
        (evidence ++ "\n\n--- Search: " ++ (judge iter).next_search ++ " ---\n" ++
          research claim (judge iter).next_search)
        (history ++ [(judge iter).next_search]) (calls + 1)
        (rlog ++ [(judge iter).next_search])
    else
      fireLoop judge research claim maxIter fuel (iter + 1) evidence history
        (calls + 1) rlog

/-- `FireJudgeModule.forward`: run the FIRE loop over `maxIter` rounds
from the initial state (empty evidence, empty search history). -/
def forward (judge : Nat → JudgeResponse) (research : String → String → String)
    (claim : String) (maxIter : Nat) : FireTrace :=
  fireLoop judge research claim maxIter maxIter 0 "" [] 0 []

/-- The state update performed by a round whose judgment response has no
verdict: a truthy new query extends evidence, history and the research
log; otherwise the state is unchanged. -/
def fireStep (judge : Nat → JudgeResponse) (research : String → String → String)
    (claim : String) (i : Nat) (s : FireState) : FireState :=
  if (judge i).next_search != "" && !(s.history.contains (judge i).next_search) then
    ⟨s.evidence ++ "\n\n--- Search: " ++ (judge i).next_search ++ " ---\n" ++
       research claim (judge i).next_search,
     s.history ++ [(judge i).next_search], s.rlog ++ [(judge i).next_search]⟩
  else s

/-- `fireStatesFrom judge research claim iter s n` is the state after
performing the verdict-free rounds `iter, iter+1, …, iter+n-1` from
state `s`. -/
def fireStatesFrom (judge : Nat → JudgeResponse) (research : String → String → String)
    (claim : String) (iter : Nat) (s : FireState) : Nat → FireState
  | 0 => s
  | n + 1 => fireStatesFrom judge research claim (iter + 1)
      (fireStep judge research claim iter s) n

/-- A round whose judgment response has an empty verdict advances the
loop to the next round with the state updated by `fireStep` and one more
judge call. -/
theorem fireLoop_advance (judge : Nat → JudgeResponse) (research : String → String → String)
    (claim : String) (maxIter fuel iter calls : Nat) (s : FireState)
    (hv : (judge iter).verdict = "") :
    fireLoop judge research claim maxIter (fuel + 1) iter s.evidence s.history calls
        s.rlog =
      fireLoop judge research claim maxIter fuel (iter + 1)
        (fireStep judge research claim iter s).evidence
        (fireStep judge research claim iter s).history (calls + 1)
        (fireStep judge research claim iter s).rlog := by
  rw [fireLoop]
  simp only [hv, fireStep]
  simp only [bne_self_eq_false, Bool.false_eq_true, if_false]
  split_ifs <;> rfl

/-- With no fuel left, the loop returns the exhaustion judgment. -/
theorem fireLoop_exhausted (judge : Nat → JudgeResponse) (research : String → String → String)
    (claim : String) (maxIter calls iter : Nat) (evidence : String)
    (history : List String) (rlog : List String) :
    fireLoop judge research claim maxIter 0 iter evidence history calls rlog =
      ⟨⟨claim, "not_supported", evidence, history, maxIter⟩, calls, rlog⟩ := rfl

/-- If the round-`iter` response has a non-empty verdict, the loop
returns it immediately. -/
theorem fireLoop_verdict_now (judge : Nat → JudgeResponse) (research : String → String → String)
    (claim : String) (maxIter fuel iter calls : Nat) (evidence : String)
    (history : List String) (rlog : List String) (hv : (judge iter).verdict ≠ "") :
    fireLoop judge research claim maxIter (fuel + 1) iter evidence history calls rlog =
      ⟨⟨claim, (judge iter).verdict, evidence, history, iter + 1⟩, calls + 1, rlog⟩ := by
  rw [fireLoop]
  simp [hv]

/-- Characterization of an exhausted run: if every round in
`[iter, iter+n)` returns an empty verdict, running the loop with fuel
`n` folds `fireStep` over those rounds and returns `not_supported` with
`iterations = maxIter`. -/
theorem fireLoop_exhaust_spec (judge : Nat → JudgeResponse) (research : String → String → String)
    (claim : String) (maxIter : Nat) :
    ∀ (n iter calls : Nat) (s : FireState),
      (∀ i, iter ≤ i → i < iter + n → (judge i).verdict = "") →
      fireLoop judge research claim maxIter n iter s.evidence s.history calls s.rlog =
        ⟨⟨claim, "not_supported",
            (fireStatesFrom judge research claim iter s n).evidence,
            (fireStatesFrom judge research claim iter s n).history, maxIter⟩,
          calls + n,
          (fireStatesFrom judge research claim iter s n).rlog⟩ := by
  intro n
  induction n with
  | zero =>
    intro iter calls s _
    simp [fireLoop_exhausted, fireStatesFrom]
  | succ n ih =>
    intro iter calls s hall
    rw [fireLoop_advance judge research claim maxIter n iter calls s
      (hall iter le_rfl (by omega))]
    rw [ih (iter + 1) (calls + 1) (fireStep judge research claim iter s)
      (fun i hi hlt => hall i (by omega) (by omega))]
    simp [fireStatesFrom]
    omega

/-- Characterization of a run that reaches a verdict: if rounds
`iter, …, iter+n-1` return empty verdicts, round `iter+n` returns a
non-empty verdict, and more than `n` rounds of fuel remain, the loop
returns that verdict, with the state folded over the verdict-free
rounds only and `iterations = iter + n + 1`. -/
theorem fireLoop_verdict_spec (judge : Nat → JudgeResponse) (research : String → String → String)
    (claim : String) (maxIter : Nat) :
    ∀ (n fuel iter calls : Nat) (s : FireState),
      (∀ i, iter ≤ i → i < iter + n → (judge i).verdict = "") →
      (judge (iter + n)).verdict ≠ "" →
      n < fuel →
      fireLoop judge research claim maxIter fuel iter s.evidence s.history calls
          s.rlog =
        ⟨⟨claim, (judge (iter + n)).verdict,
            (fireStatesFrom judge research claim iter s n).evidence,
            (fireStatesFrom judge research claim iter s n).history, iter + n + 1⟩,
          calls + n + 1,
          (fireStatesFrom judge research claim iter s n).rlog⟩ := by
  intro n
  induction n with
  | zero =>
    intro fuel iter calls s _ hv hfuel
    obtain ⟨fuel, rfl⟩ : ∃ m, fuel = m + 1 := ⟨fuel - 1, by omega⟩
    simpa [fireStatesFrom] using
      fireLoop_verdict_now judge research claim maxIter fuel iter calls
        s.evidence s.history s.rlog (by simpa using hv)
  | succ n ih =>
    intro fuel iter calls s hall hv hfuel
    obtain ⟨fuel, rfl⟩ : ∃ m, fuel = m + 1 := ⟨fuel - 1, by omega⟩
    rw [fireLoop_advance judge research claim maxIter fuel iter calls s
      (hall iter le_rfl (by omega))]
    rw [ih fuel (iter + 1) (calls + 1) (fireStep judge research claim iter s)
      (fun i hi hilt => hall i (by omega) (by omega))
      (by have : iter + 1 + n = iter + (n + 1) := by omega
          rw [this]; exact hv) (by omega)]
    have harith : iter + 1 + n = iter + (n + 1) := by omega
    simp [fireStatesFrom, harith]
    omega

/-- The loop makes at most `calls + fuel` judge calls. -/
theorem fireLoop_calls_le (judge : Nat → JudgeResponse) (research : String → String → String)
    (claim : String) (maxIter : Nat) :
    ∀ (fuel iter calls : Nat) (s : FireState),
      (fireLoop judge research claim maxIter fuel iter s.evidence s.history calls
          s.rlog).judgeCalls ≤ calls + fuel := by
  intro fuel
  induction fuel with
  | zero =>
    intro iter calls s
    simp [fireLoop_exhausted]
  | succ fuel ih =>
    intro iter calls s
    by_cases hv : (judge iter).verdict = ""
    · rw [fireLoop_advance judge research claim maxIter fuel iter calls s hv]
      have := ih (iter + 1) (calls + 1) (fireStep judge research claim iter s)
      omega
    · rw [fireLoop_verdict_now judge research claim maxIter fuel iter calls
        s.evidence s.history s.rlog hv]
      simp only
      omega

/-- Starting from a state whose history equals its research log, one
`fireStep` keeps them equal and preserves distinctness of the history. -/
theorem fireStep_sync (judge : Nat → JudgeResponse) (research : String → String → String)
    (claim : String) (i : Nat) (e : String) (h : List String) (hnd : h.Nodup) :
    ∃ e2 h2, fireStep judge research claim i ⟨e, h, h⟩ = ⟨e2, h2, h2⟩ ∧ h2.Nodup := by
  unfold fireStep
  split_ifs with hc
  · simp only [Bool.and_eq_true, bne_iff_ne, ne_eq, Bool.not_eq_true'] at hc
    have hmem : (judge i).next_search ∉ h := by simpa using hc.2
    refine ⟨_, _, rfl, ?_⟩
    have := List.Nodup.concat hmem hnd
    rwa [List.concat_eq_append] at this
  · exact ⟨e, h, rfl, hnd⟩

/-- If the loop is started with a duplicate-free history equal to its
research log, the returned `search_queries` are duplicate-free and equal
to the log of research-agent invocations. -/
theorem fireLoop_dedup (judge : Nat → JudgeResponse) (research : String → String → String)
    (claim : String) (maxIter : Nat) :
    ∀ (fuel iter calls : Nat) (e : String) (h : List String), h.Nodup →
      (fireLoop judge research claim maxIter fuel iter e h calls
          h).result.search_queries.Nodup ∧
      (fireLoop judge research claim maxIter fuel iter e h calls h).researchLog =
        (fireLoop judge research claim maxIter fuel iter e h calls
          h).result.search_queries := by
  intro fuel
  induction fuel with
  | zero =>
    intro iter calls e h hnd
    exact ⟨hnd, rfl⟩
  | succ fuel ih =>
    intro iter calls e h hnd
    by_cases hv : (judge iter).verdict = ""
    · obtain ⟨e2, h2, heq, hnd2⟩ := fireStep_sync judge research claim iter e h hnd
      have hadv := fireLoop_advance judge research claim maxIter fuel iter calls
        ⟨e, h, h⟩ hv
      rw [heq] at hadv
      rw [show fireLoop judge research claim maxIter (fuel + 1) iter e h calls h =
        fireLoop judge research claim maxIter fuel (iter + 1) e2 h2 (calls + 1) h2
        from hadv]
      exact ih (iter + 1) (calls + 1) e2 h2 hnd2
    · rw [fireLoop_verdict_now judge research claim maxIter fuel iter calls e h h hv]
      exact ⟨hnd, rfl⟩

/-- `fireStep` preserves distinctness of the history. -/
theorem fireStep_nodup (judge : Nat → JudgeResponse) (research : String → String → String)
    (claim : String) (i : Nat) (s : FireState) (hnd : s.history.Nodup) :
    (fireStep judge research claim i s).history.Nodup := by
  unfold fireStep
  split_ifs with hc
  · simp only [Bool.and_eq_true, bne_iff_ne, ne_eq, Bool.not_eq_true'] at hc
    have hmem : (judge i).next_search ∉ s.history := by simpa using hc.2
    have := List.Nodup.concat hmem hnd
    rwa [List.concat_eq_append] at this
  · exact hnd

/-- Every intermediate history reached by folding verdict-free rounds
from a duplicate-free history is duplicate-free. -/
theorem fireStatesFrom_nodup (judge : Nat → JudgeResponse) (research : String → String → String)
    (claim : String) :
    ∀ (n iter : Nat) (s : FireState), s.history.Nodup →
      (fireStatesFrom judge research claim iter s n).history.Nodup := by
  intro n
  induction n with
  | zero => intro iter s hnd; exact hnd
  | succ n ih =>
    intro iter s hnd
    exact ih (iter + 1) (fireStep judge research claim iter s)
      (fireStep_nodup judge research claim iter s hnd)

end FireJudgeModule

/-- A judge that never returns a verdict or a query. -/
def judgeSilent : Nat → JudgeResponse := fun _ => ⟨"", ""⟩

/-- A research-agent stub returning one supporting evidence block. -/
def researchStub : String → String → String :=
  fun _ _ => "Source: example.com\nStance: supports\nEvidence: X happened in 2020"

/-- Scenario judge: round 1 has no verdict and suggests the search
"X date"; round 2 returns the verdict supported. -/
def judgeScenario : Nat → JudgeResponse := fun i =>
  if i == 0 then ⟨"", "X date"⟩ else if i == 1 then ⟨"supported", ""⟩ else ⟨"", ""⟩

/-- A judge that suggests the query "q" in round 1 and, in round 2,
returns both a verdict and the same query "q" again. -/
def judgeRepeat : Nat → JudgeResponse := fun i =>
  if i == 0 then ⟨"", "q"⟩ else ⟨"supported", "q"⟩

/-- C4: for every claim and every max_iterations budget, one Claim Judge
run makes at most max_iterations Oracle judgment calls before reaching
its terminal Judgment. -/
theorem fire_judge_calls_bounded (judge : Nat → JudgeResponse)
    (research : String → String → String) (claim : String) (maxIter : Nat) :
    (FireJudgeModule.forward judge research claim maxIter).judgeCalls ≤ maxIter := by
  have h := FireJudgeModule.fireLoop_calls_le judge research claim maxIter maxIter 0 0
    initFireState
  simpa [FireJudgeModule.forward, initFireState] using h

/-- C5: if all max_iterations rounds complete without the Oracle
returning a non-empty verdict, the run terminates with verdict
not_supported (never refuted) and iterations_used equal to
max_iterations. -/
theorem fire_judge_exhaustion_defaults_not_supported (judge : Nat → JudgeResponse)
    (research : String → String → String) (claim : String) (maxIter : Nat)
    (hall : ∀ i, i < maxIter → (judge i).verdict = "") :
    (FireJudgeModule.forward judge research claim maxIter).result.verdict =
        "not_supported" ∧
      (FireJudgeModule.forward judge research claim maxIter).result.iterations =
        maxIter := by
  have h := FireJudgeModule.fireLoop_exhaust_spec judge research claim maxIter maxIter
    0 0 initFireState (fun i _ hi => hall i (by omega))
  simp only [initFireState] at h
  simp [FireJudgeModule.forward, h]

/-- Witness for C5: a judge returning no verdict in any of its 3 rounds
yields not_supported with iterations_used = 3. -/
theorem fire_judge_exhaustion_defaults_not_supported_witness :
    (∀ i, i < 3 → (judgeSilent i).verdict = "") ∧
      ((FireJudgeModule.forward judgeSilent researchStub "c" 3).result.verdict =
          "not_supported" ∧
        (FireJudgeModule.forward judgeSilent researchStub "c" 3).result.iterations =
          3) :=
  ⟨by decide, fire_judge_exhaustion_defaults_not_supported judgeSilent researchStub
    "c" 3 (by decide)⟩

/-- C6: if the Oracle returns a non-empty verdict in round k+1 (0-based
round index k) and all earlier rounds returned no verdict, the run
terminates immediately with that verdict and iterations_used = k + 1. -/
theorem fire_judge_verdict_terminates_run (judge : Nat → JudgeResponse)
    (research : String → String → String) (claim : String) (maxIter k : Nat)
    (hk : k < maxIter) (hbefore : ∀ i, i < k → (judge i).verdict = "")
    (hv : (judge k).verdict ≠ "") :
    (FireJudgeModule.forward judge research claim maxIter).result.verdict =
        (judge k).verdict ∧
      (FireJudgeModule.forward judge research claim maxIter).result.iterations =
        k + 1 := by
  have h := FireJudgeModule.fireLoop_verdict_spec judge research claim maxIter k
    maxIter 0 0 initFireState (fun i _ hi => hbefore i (by omega))
    (by simpa using hv) hk
  simp only [initFireState, Nat.zero_add] at h
  simp [FireJudgeModule.forward, h]

/-- Witness for C6: the spec scenario — budget 3, round 1 suggests
"X date", round 2 returns supported — yields verdict supported,
iterations_used 2 and search_queries ["X date"]. -/
theorem fire_judge_verdict_terminates_run_witness :
    (1 < 3 ∧ (∀ i, i < 1 → (judgeScenario i).verdict = "") ∧
        (judgeScenario 1).verdict ≠ "") ∧
      ((FireJudgeModule.forward judgeScenario researchStub
            "X happened in 2020" 3).result.verdict = "supported" ∧
        (FireJudgeModule.forward judgeScenario researchStub
            "X happened in 2020" 3).result.iterations = 2 ∧
        (FireJudgeModule.forward judgeScenario researchStub
            "X happened in 2020" 3).result.search_queries = ["X date"]) := by
  refine ⟨⟨by decide, by decide, by decide⟩, ?_, ?_, by decide⟩
  · exact (fire_judge_verdict_terminates_run judgeScenario researchStub
      "X happened in 2020" 3 1 (by decide) (by decide) (by decide)).1
  · exact (fire_judge_verdict_terminates_run judgeScenario researchStub
      "X happened in 2020" 3 1 (by decide) (by decide) (by decide)).2

/-- C7: the Research Agent is never invoked twice with the same query
in one run: the research-invocation log equals the returned
search_queries and is duplicate-free; a suggestion already in the
history leaves the round's state unchanged (no search performed); and
the history is duplicate-free at every intermediate point. -/
theorem fire_judge_search_dedup (judge : Nat → JudgeResponse)
    (research : String → String → String) (claim : String) (maxIter : Nat) :
    ((FireJudgeModule.forward judge research claim
          maxIter).result.search_queries.Nodup ∧
      (FireJudgeModule.forward judge research claim maxIter).researchLog =
        (FireJudgeModule.forward judge research claim
          maxIter).result.search_queries) ∧
      (∀ i s, (judge i).next_search ∈ s.history →
        FireJudgeModule.fireStep judge research claim i s = s) ∧
      (∀ k, (FireJudgeModule.fireStatesFrom judge research claim 0 initFireState
          k).history.Nodup) := by
  refine ⟨?_, ?_, ?_⟩
  · have h := FireJudgeModule.fireLoop_dedup judge research claim maxIter maxIter
      0 0 "" [] List.nodup_nil
    simpa [FireJudgeModule.forward] using h
  · intro i s hmem
    unfold FireJudgeModule.fireStep
    have hcon : s.history.contains (judge i).next_search = true := by
      simpa using hmem
    have hcond : ((judge i).next_search != "" &&
        !(s.history.contains (judge i).next_search)) = false := by
      rw [hcon]; simp
    simp only [hcond, Bool.false_eq_true, if_false]
  · intro k
    exact FireJudgeModule.fireStatesFrom_nodup judge research claim k 0 initFireState
      List.nodup_nil

/-- C10 (amended): when the Oracle returns a non-empty verdict in round
k+1 (0-based index k), even together with a non-empty next_search, the
run terminates with that verdict and its Judgment carries exactly the
evidence, history and research log accumulated before that round: the
round-k suggestion triggers no research call and is appended to
nothing. -/
theorem fire_judge_verdict_precedence (judge : Nat → JudgeResponse)
    (research : String → String → String) (claim : String) (maxIter k : Nat)
    (hk : k < maxIter) (hbefore : ∀ i, i < k → (judge i).verdict = "")
    (hv : (judge k).verdict ≠ "") (_hns : (judge k).next_search ≠ "") :
    FireJudgeModule.forward judge research claim maxIter =
      ⟨⟨claim, (judge k).verdict,
          (FireJudgeModule.fireStatesFrom judge research claim 0 initFireState
            k).evidence,
          (FireJudgeModule.fireStatesFrom judge research claim 0 initFireState
            k).history, k + 1⟩,
        k + 1,
        (FireJudgeModule.fireStatesFrom judge research claim 0 initFireState
          k).rlog⟩ := by
  have h := FireJudgeModule.fireLoop_verdict_spec judge research claim maxIter k
    maxIter 0 0 initFireState (fun i _ hi => hbefore i (by omega))
    (by simpa using hv) hk
  simp only [Nat.zero_add] at h
  simp only [FireJudgeModule.forward]
  rw [show ("" : String) = initFireState.evidence from rfl,
    show ([] : List String) = initFireState.history from rfl]
  exact h

/-- Witness for C10 (amended): with the round-2 response carrying both
verdict supported and the repeated query "q", the run returns the
verdict with the round-1 state untouched by the round-2 suggestion. -/
theorem fire_judge_verdict_precedence_witness :
    (1 < 3 ∧ (∀ i, i < 1 → (judgeRepeat i).verdict = "") ∧
        (judgeRepeat 1).verdict ≠ "" ∧ (judgeRepeat 1).next_search ≠ "") ∧
      FireJudgeModule.forward judgeRepeat researchStub "c" 3 =
        ⟨⟨"c", "supported",
            (FireJudgeModule.fireStatesFrom judgeRepeat researchStub "c" 0
              initFireState 1).evidence,
            (FireJudgeModule.fireStatesFrom judgeRepeat researchStub "c" 0
              initFireState 1).history, 2⟩,
          2,
          (FireJudgeModule.fireStatesFrom judgeRepeat researchStub "c" 0
            initFireState 1).rlog⟩ :=
  ⟨⟨by decide, by decide, by decide, by decide⟩,
    fire_judge_verdict_precedence judgeRepeat researchStub "c" 3 1 (by decide)
      (by decide) (by decide) (by decide)⟩

/-- Counterexample to C10 as stated: in round 2 the Oracle returns both
verdict "supported" and next_search "q"; the run terminates with the
verdict, yet "q" does appear in the returned Judgment's search_queries,
because the same query was already searched in round 1. -/
theorem fire_judge_suggested_query_reappears :
    (judgeRepeat 1).verdict ≠ "" ∧ (judgeRepeat 1).next_search = "q" ∧
      (FireJudgeModule.forward judgeRepeat researchStub "c" 3).result.verdict =
        "supported" ∧
      (FireJudgeModule.forward judgeRepeat researchStub "c" 3).result.iterations =
        2 ∧
      "q" ∈ (FireJudgeModule.forward judgeRepeat researchStub
        "c" 3).result.search_queries := by
  decide

/-- `SearchResult` dataclass from `serper_service.py`. -/
structure SearchResult where
  title : String
  link : String
  snippet : String
  position : Nat
deriving Repr, DecidableEq

/-- `ScrapedPage` dataclass from `firecrawl_service.py` (`title` is
`Optional[str]`, modelled with `""` for `None`). -/
structure ScrapedPage where
  url : String
  markdown : String
  title : String
  success : Bool
  error : String
deriving Repr, DecidableEq

/-- Response of one Oracle page-selection call (`PageSelector`
signature): the chosen URL, or `""` for `None` ("no more useful
pages"). -/
structure PageSelection where
  selected_url : String
deriving Repr, DecidableEq

/-- Response of one Oracle evidence-summarization call
(`EvidenceSummarizer` signature). -/
structure SummaryResponse where
  relevant_evidence : String
  evidence_stance : String
deriving Repr, DecidableEq

/-- One entry of the `all_evidence` list of
`ResearchAgentModule.forward`, kept structured; `renderBlock` rebuilds
the exact string the source appends. -/
inductive EvidenceBlock where
  | failure (url err : String)
  | page (url stance evidence : String)
deriving Repr, DecidableEq

/-- The string the source appends to `all_evidence` for a block. -/
def renderBlock : EvidenceBlock → String
  | .failure url err => "[Failed to scrape " ++ url ++ ": " ++ err ++ "]"
  | .page url stance evidence =>
      "Source: " ++ url ++ "\nStance: " ++ stance ++ "\nEvidence: " ++ evidence

/-- State of one Research Agent run: the `visited_urls` and
`all_evidence` variables of `ResearchAgentModule.forward`, plus
instrumentation — the list of URLs fetched in order and the number of
page-selection and summarization Oracle calls made. -/
structure ResearchTrace where
  visited_urls : List String
  blocks : List EvidenceBlock
  fetched : List String
  selCalls : Nat
  sumCalls : Nat
deriving Repr, DecidableEq

/-- The empty Research Agent state. -/
def initTrace : ResearchTrace := ⟨[], [], [], 0, 0⟩

/-- A page stance counts as decisive when it is supports or refutes
(the early-exit test `evidence_stance in ["supports", "refutes"]`). -/
def decisiveStance (stance : String) : Bool :=
  stance == "supports" || stance == "refutes"

namespace ResearchAgentModule

/-- The page-visit loop of `ResearchAgentModule.forward` with the
page budget as structural fuel.  `sel i` is the Oracle page-selection
response of the `i`-th selection call and `summ i` the Oracle
summarization response of the `i`-th summarization call (the source
passes the claim, the search results and the current state, which are
determined by the trace); `scrape url` is the `FirecrawlService.scrape`
result for `url`.  Each round: select a page (empty URL stops the
loop); record it visited; scrape it; on failure append a tagged
failure note and continue; on success append the summarized block and
stop early when the stance is decisive. -/
def researchLoop (sel : Nat → PageSelection) (summ : Nat → SummaryResponse)
    (scrape : String → ScrapedPage) : Nat → ResearchTrace → ResearchTrace
  | 0, st => st
  | fuel + 1, st =>
    if (sel st.selCalls).selected_url == "" then
      { st with selCalls := st.selCalls + 1 }
    else
      let url := (sel st.selCalls).selected_url
      let scraped := scrape url
      if !scraped.success then
        researchLoop sel summ scrape fuel
          { st with selCalls := st.selCalls + 1,
                    visited_urls := st.visited_urls ++ [url],
                    fetched := st.fetched ++ [url],
                    blocks := st.blocks ++ [.failure url scraped.error] }
      else
        let st2 : ResearchTrace :=
          { st with selCalls := st.selCalls + 1,
                    visited_urls := st.visited_urls ++ [url],
                    fetched := st.fetched ++ [url],
                    sumCalls := st.sumCalls + 1,
                    blocks := st.blocks ++
                      [.page url (summ st.sumCalls).evidence_stance
                        (summ st.sumCalls).relevant_evidence] }
        if decisiveStance (summ st.sumCalls).evidence_stance then st2
        else researchLoop sel summ scrape fuel st2

/-- Output aggregation of `ResearchAgentModule.forward`:
`"\n\n".join(all_evidence)` or the no-evidence sentinel. -/
def joinBlocks (blocks : List EvidenceBlock) : String :=
  if blocks.isEmpty then "No relevant evidence found."
  else String.intercalate "\n\n" (blocks.map renderBlock)

/-- `ResearchAgentModule.forward`.  `search` is the outcome of
`self.serper.search(query, num_results=10)`: `Except.error` models the
`requests.HTTPError` that `SerperService.search` raises on a failed
request and that this method does not catch; `Except.ok` carries the
parsed result list.  An empty result list returns the
"No search results found." sentinel without entering the loop;
otherwise the loop runs with `max_page_visits` budget and the evidence
blocks are joined.  The returned trace is instrumentation alongside
the returned string. -/
def forward (search : Except String (List SearchResult))
    (sel : Nat → PageSelection) (summ : Nat → SummaryResponse)
    (scrape : String → ScrapedPage) (maxPageVisits : Nat) :
    Except String (String × ResearchTrace) :=
  match search with
  | .error e => .error e
  | .ok search_results =>
    if search_results.isEmpty then .ok ("No search results found.", initTrace)
    else
      let st := researchLoop sel summ scrape maxPageVisits initTrace
      .ok (joinBlocks st.blocks, st)

/-- Fetched-URL list of a Research Agent outcome (empty on error). -/
def fetchedOf : Except String (String × ResearchTrace) → List String
  | .ok (_, st) => st.fetched
  | .error _ => []

/-- Trace of a Research Agent outcome (initial trace on error). -/
def traceOf : Except String (String × ResearchTrace) → ResearchTrace
  | .ok (_, st) => st
  | .error _ => initTrace

end ResearchAgentModule

namespace ResearchAgentModule

/-- With no budget left, the loop returns its state unchanged. -/
theorem researchLoop_zero (sel : Nat → PageSelection) (summ : Nat → SummaryResponse)
    (scrape : String → ScrapedPage) (st : ResearchTrace) :
    researchLoop sel summ scrape 0 st = st := rfl

/-- An empty page selection stops the loop (after the selection call). -/
theorem researchLoop_succ_stop (sel : Nat → PageSelection) (summ : Nat → SummaryResponse)
    (scrape : String → ScrapedPage) (fuel : Nat) (st : ResearchTrace)
    (h : (sel st.selCalls).selected_url = "") :
    researchLoop sel summ scrape (fuel + 1) st =
      { st with selCalls := st.selCalls + 1 } := by
  rw [researchLoop]
  simp [h]

/-- A failed scrape appends a tagged failure note and continues. -/
theorem researchLoop_succ_fail (sel : Nat → PageSelection) (summ : Nat → SummaryResponse)
    (scrape : String → ScrapedPage) (fuel : Nat) (st : ResearchTrace)
    (h : (sel st.selCalls).selected_url ≠ "")
    (hf : (scrape (sel st.selCalls).selected_url).success = false) :
    researchLoop sel summ scrape (fuel + 1) st =
      researchLoop sel summ scrape fuel
        { st with selCalls := st.selCalls + 1,
                  visited_urls := st.visited_urls ++ [(sel st.selCalls).selected_url],
                  fetched := st.fetched ++ [(sel st.selCalls).selected_url],
                  blocks := st.blocks ++
                    [.failure (sel st.selCalls).selected_url
                      (scrape (sel st.selCalls).selected_url).error] } := by
  rw [researchLoop]
  simp [h, hf]

/-- A successful scrape appends the summarized block; a decisive stance
stops the loop, otherwise it continues. -/
theorem researchLoop_succ_page (sel : Nat → PageSelection) (summ : Nat → SummaryResponse)
    (scrape : String → ScrapedPage) (fuel : Nat) (st : ResearchTrace)
    (h : (sel st.selCalls).selected_url ≠ "")
    (hs : (scrape (sel st.selCalls).selected_url).success = true) :
    researchLoop sel summ scrape (fuel + 1) st =
      (if decisiveStance (summ st.sumCalls).evidence_stance then
        { st with selCalls := st.selCalls + 1,
                  visited_urls := st.visited_urls ++ [(sel st.selCalls).selected_url],
                  fetched := st.fetched ++ [(sel st.selCalls).selected_url],
                  sumCalls := st.sumCalls + 1,
                  blocks := st.blocks ++
                    [.page (sel st.selCalls).selected_url
                      (summ st.sumCalls).evidence_stance
                      (summ st.sumCalls).relevant_evidence] }
      else
        researchLoop sel summ scrape fuel
          { st with selCalls := st.selCalls + 1,
                    visited_urls := st.visited_urls ++ [(sel st.selCalls).selected_url],
                    fetched := st.fetched ++ [(sel st.selCalls).selected_url],
                    sumCalls := st.sumCalls + 1,
                    blocks := st.blocks ++
                      [.page (sel st.selCalls).selected_url
                        (summ st.sumCalls).evidence_stance
                        (summ st.sumCalls).relevant_evidence] }) := by
  rw [researchLoop]
  simp [h, hs]

/-- The loop performs at most `fuel` additional page fetches. -/
theorem researchLoop_fetch_le (sel : Nat → PageSelection) (summ : Nat → SummaryResponse)
    (scrape : String → ScrapedPage) :
    ∀ (fuel : Nat) (st : ResearchTrace),
      (researchLoop sel summ scrape fuel st).fetched.length ≤
        st.fetched.length + fuel := by
  intro fuel
  induction fuel with
  | zero => intro st; simp [researchLoop_zero]
  | succ fuel ih =>
    intro st
    by_cases h : (sel st.selCalls).selected_url = ""
    · rw [researchLoop_succ_stop sel summ scrape fuel st h]
      simp
    · by_cases hs : (scrape (sel st.selCalls).selected_url).success = true
      · rw [researchLoop_succ_page sel summ scrape fuel st h hs]
        split_ifs
        · simp
        · refine le_trans (ih _) ?_
          simp
          omega
      · have hf : (scrape (sel st.selCalls).selected_url).success = false := by
          simpa using hs
        rw [researchLoop_succ_fail sel summ scrape fuel st h hf]
        refine le_trans (ih _) ?_
        simp
        omega

/-- The loop keeps `visited_urls` equal to the fetch log: every selected
URL is recorded visited exactly when it is fetched. -/
theorem researchLoop_visited_eq_fetched (sel : Nat → PageSelection)
    (summ : Nat → SummaryResponse) (scrape : String → ScrapedPage) :
    ∀ (fuel : Nat) (st : ResearchTrace), st.visited_urls = st.fetched →
      (researchLoop sel summ scrape fuel st).visited_urls =
        (researchLoop sel summ scrape fuel st).fetched := by
  intro fuel
  induction fuel with
  | zero => intro st h; simpa [researchLoop_zero] using h
  | succ fuel ih =>
    intro st heq
    by_cases h : (sel st.selCalls).selected_url = ""
    · rw [researchLoop_succ_stop sel summ scrape fuel st h]
      simpa using heq
    · by_cases hs : (scrape (sel st.selCalls).selected_url).success = true
      · rw [researchLoop_succ_page sel summ scrape fuel st h hs]
        split_ifs
        · simpa using heq
        · exact ih _ (by simpa using heq)
      · have hf : (scrape (sel st.selCalls).selected_url).success = false := by
          simpa using hs
        rw [researchLoop_succ_fail sel summ scrape fuel st h hf]
        exact ih _ (by simpa using heq)

end ResearchAgentModule

namespace ResearchAgentModule

/-- Failed fetches are captured: if every previously fetched URL whose
scrape failed already has its tagged failure note among the blocks, the
same holds after running the loop. -/
theorem researchLoop_failures (sel : Nat → PageSelection) (summ : Nat → SummaryResponse)
    (scrape : String → ScrapedPage) :
    ∀ (fuel : Nat) (st : ResearchTrace),
      (∀ u, u ∈ st.fetched → (scrape u).success = false →
        EvidenceBlock.failure u (scrape u).error ∈ st.blocks) →
      ∀ u, u ∈ (researchLoop sel summ scrape fuel st).fetched →
        (scrape u).success = false →
        EvidenceBlock.failure u (scrape u).error ∈
          (researchLoop sel summ scrape fuel st).blocks := by
  intro fuel
  induction fuel with
  | zero =>
    intro st hinv
    simpa [researchLoop_zero] using hinv
  | succ fuel ih =>
    intro st hinv
    by_cases h : (sel st.selCalls).selected_url = ""
    · rw [researchLoop_succ_stop sel summ scrape fuel st h]
      simpa using hinv
    · by_cases hs : (scrape (sel st.selCalls).selected_url).success = true
      · rw [researchLoop_succ_page sel summ scrape fuel st h hs]
        split_ifs
        · intro u hu hfail
          simp only [List.mem_append, List.mem_singleton] at hu
          rcases hu with hu | hu
          · exact List.mem_append_left _ (hinv u hu hfail)
          · subst hu
            simp [hs] at hfail
        · refine ih _ ?_
          intro u hu hfail
          simp only [List.mem_append, List.mem_singleton] at hu
          rcases hu with hu | hu
          · exact List.mem_append_left _ (hinv u hu hfail)
          · subst hu
            simp [hs] at hfail
      · have hf : (scrape (sel st.selCalls).selected_url).success = false := by
          simpa using hs
        rw [researchLoop_succ_fail sel summ scrape fuel st h hf]
        refine ih _ ?_
        intro u hu hfail
        simp only [List.mem_append, List.mem_singleton] at hu
        rcases hu with hu | hu
        · exact List.mem_append_left _ (hinv u hu hfail)
        · subst hu
          exact List.mem_append_right _ (by simp)

/-- Early exit on decisive stance: starting from a state with no
decisive summary consumed and with one selection call per fetch, if the
`j`-th summarization response is decisive and was consumed by the loop,
then it was the last call of the run — the summarized block is the last
block appended, and no further selection or fetch happened. -/
theorem researchLoop_decisive (sel : Nat → PageSelection) (summ : Nat → SummaryResponse)
    (scrape : String → ScrapedPage) :
    ∀ (fuel : Nat) (st : ResearchTrace),
      (∀ j, j < st.sumCalls → decisiveStance (summ j).evidence_stance = false) →
      st.selCalls = st.fetched.length →
      ∀ j, j < (researchLoop sel summ scrape fuel st).sumCalls →
        decisiveStance (summ j).evidence_stance = true →
        (j + 1 = (researchLoop sel summ scrape fuel st).sumCalls ∧
          (researchLoop sel summ scrape fuel st).selCalls =
            (researchLoop sel summ scrape fuel st).fetched.length ∧
          ∃ u, (researchLoop sel summ scrape fuel st).blocks.getLast? =
            some (EvidenceBlock.page u (summ j).evidence_stance
              (summ j).relevant_evidence)) := by
  intro fuel
  induction fuel with
  | zero =>
    intro st hnone hsync j hj hdec
    rw [researchLoop_zero] at hj ⊢
    rw [hnone j hj] at hdec
    cases hdec
  | succ fuel ih =>
    intro st hnone hsync j hj hdec
    by_cases h : (sel st.selCalls).selected_url = ""
    · rw [researchLoop_succ_stop sel summ scrape fuel st h] at hj ⊢
      simp only at hj
      rw [hnone j hj] at hdec
      cases hdec
    · by_cases hs : (scrape (sel st.selCalls).selected_url).success = true
      · rw [researchLoop_succ_page sel summ scrape fuel st h hs] at hj ⊢
        split_ifs at hj ⊢ with hdecs
        · simp only at hj
          have hcase : j < st.sumCalls ∨ j = st.sumCalls := by omega
          rcases hcase with hlt | heq
          · rw [hnone j hlt] at hdec
            cases hdec
          · subst heq
            refine ⟨by simp, by simp [hsync], (sel st.selCalls).selected_url, ?_⟩
            simp
        · refine ih _ ?_ ?_ j hj hdec
          · intro j2 hj2
            simp only at hj2
            have hcase : j2 < st.sumCalls ∨ j2 = st.sumCalls := by omega
            rcases hcase with hlt | heq
            · exact hnone j2 hlt
            · subst heq
              simpa using hdecs
          · simp [hsync]
      · have hf : (scrape (sel st.selCalls).selected_url).success = false := by
          simpa using hs
        rw [researchLoop_succ_fail sel summ scrape fuel st h hf] at hj ⊢
        refine ih _ ?_ ?_ j hj hdec
        · intro j2 hj2
          simp only at hj2
          exact hnone j2 hj2
        · simp [hsync]

end ResearchAgentModule

/-- A selector that always chooses the URL "u". -/
def selU : Nat → PageSelection := fun _ => ⟨"u"⟩

/-- A summarizer that always reports a neutral stance. -/
def summNeutral : Nat → SummaryResponse := fun _ => ⟨"ev", "neutral"⟩

/-- A summarizer that always reports a supports stance. -/
def summSupports : Nat → SummaryResponse := fun _ => ⟨"ev", "supports"⟩

/-- A scraper that always succeeds. -/
def scrapeOk : String → ScrapedPage := fun url => ⟨url, "content", "t", true, ""⟩

/-- A scraper that always fails with a timeout error. -/
def scrapeFail : String → ScrapedPage := fun url => ⟨url, "", "", false, "timeout"⟩

/-- A single-element search result list for concrete runs. -/
def oneResult : List SearchResult := [⟨"t", "u", "s", 1⟩]

/-- C3 (amended): once the search call has succeeded, the Research Agent
invocation always returns an evidence string — page-fetch failures are
captured as failure-tagged blocks in the accumulated evidence and the
loop continues — but a search failure (the exception raised by
`SerperService.search`) is not caught and escapes to the caller, as
`research_agent_search_failure_escapes` shows. -/
theorem research_agent_fetch_failures_contained (results : List SearchResult)
    (sel : Nat → PageSelection) (summ : Nat → SummaryResponse)
    (scrape : String → ScrapedPage) (maxPageVisits : Nat) :
    (∃ out st, ResearchAgentModule.forward (.ok results) sel summ scrape
        maxPageVisits = .ok (out, st)) ∧
      (∀ u, u ∈ (ResearchAgentModule.traceOf (ResearchAgentModule.forward
          (.ok results) sel summ scrape maxPageVisits)).fetched →
        (scrape u).success = false →
        EvidenceBlock.failure u (scrape u).error ∈
          (ResearchAgentModule.traceOf (ResearchAgentModule.forward (.ok results)
            sel summ scrape maxPageVisits)).blocks) := by
  by_cases he : results.isEmpty
  · constructor
    · exact ⟨"No search results found.", initTrace,
        by simp [ResearchAgentModule.forward, he]⟩
    · intro u hu
      simp [ResearchAgentModule.forward, he, ResearchAgentModule.traceOf,
        initTrace] at hu
  · constructor
    · exact ⟨ResearchAgentModule.joinBlocks (ResearchAgentModule.researchLoop sel
          summ scrape maxPageVisits initTrace).blocks,
        ResearchAgentModule.researchLoop sel summ scrape maxPageVisits initTrace,
        by simp [ResearchAgentModule.forward, he]⟩
    · have hT : ResearchAgentModule.traceOf (ResearchAgentModule.forward
          (.ok results) sel summ scrape maxPageVisits) =
          ResearchAgentModule.researchLoop sel summ scrape maxPageVisits initTrace := by
        simp [ResearchAgentModule.forward, he, ResearchAgentModule.traceOf]
      rw [hT]
      refine ResearchAgentModule.researchLoop_failures sel summ scrape maxPageVisits
        initTrace ?_
      intro u hu
      simp [initTrace] at hu

/-- Witness for C3 (amended): a run whose only page fetch fails returns
normally, with the tagged failure note among its evidence blocks. -/
theorem research_agent_fetch_failures_contained_witness :
    ("u" ∈ (ResearchAgentModule.traceOf (ResearchAgentModule.forward (.ok oneResult)
          selU summNeutral scrapeFail 2)).fetched ∧
        (scrapeFail "u").success = false) ∧
      EvidenceBlock.failure "u" (scrapeFail "u").error ∈
        (ResearchAgentModule.traceOf (ResearchAgentModule.forward (.ok oneResult)
          selU summNeutral scrapeFail 2)).blocks :=
  ⟨⟨by decide, by decide⟩,
    (research_agent_fetch_failures_contained oneResult selU summNeutral scrapeFail
      2).2 "u" (by decide) (by decide)⟩

/-- Counterexample to C3 as stated: a search failure (the HTTP error
raised by the search provider) escapes the Research Agent as an
exception instead of being captured in the evidence — the invocation
returns no evidence string. -/
theorem research_agent_search_failure_escapes :
    ResearchAgentModule.forward (.error "HTTPError") selU summNeutral scrapeOk 3 =
      .error "HTTPError" := rfl

/-- C8 (amended): every Research Agent invocation performs at most
max_page_visits page fetches, and every fetched URL is recorded in the
in-run visited list (which is passed back to the Oracle page-selection
call); the code contains no dedup guard of its own, so a re-selected
URL is fetched again, as `research_agent_refetches_visited_url`
shows. -/
theorem research_agent_fetch_budget (search : Except String (List SearchResult))
    (sel : Nat → PageSelection) (summ : Nat → SummaryResponse)
    (scrape : String → ScrapedPage) (maxPageVisits : Nat) :
    (ResearchAgentModule.fetchedOf (ResearchAgentModule.forward search sel summ
        scrape maxPageVisits)).length ≤ maxPageVisits ∧
      (ResearchAgentModule.traceOf (ResearchAgentModule.forward search sel summ
          scrape maxPageVisits)).visited_urls =
        (ResearchAgentModule.traceOf (ResearchAgentModule.forward search sel summ
          scrape maxPageVisits)).fetched := by
  cases search with
  | error e =>
    simp [ResearchAgentModule.forward, ResearchAgentModule.fetchedOf,
      ResearchAgentModule.traceOf, initTrace]
  | ok results =>
    by_cases he : results.isEmpty
    · simp [ResearchAgentModule.forward, he, ResearchAgentModule.fetchedOf,
        ResearchAgentModule.traceOf, initTrace]
    · constructor
      · have h := ResearchAgentModule.researchLoop_fetch_le sel summ scrape
          maxPageVisits initTrace
        simpa [ResearchAgentModule.forward, he, ResearchAgentModule.fetchedOf,
          initTrace] using h
      · have h := ResearchAgentModule.researchLoop_visited_eq_fetched sel summ scrape
          maxPageVisits initTrace rfl
        simpa [ResearchAgentModule.forward, he, ResearchAgentModule.traceOf] using h

/-- Counterexample to C8 as stated: with a page budget of 2 and an
Oracle page selection that returns "u" both times, the URL "u" — already
in the visited set after round 1 — is fetched a second time: the fetch
log is ["u", "u"]. -/
theorem research_agent_refetches_visited_url :
    ResearchAgentModule.fetchedOf (ResearchAgentModule.forward (.ok oneResult) selU
        summNeutral scrapeOk 2) = ["u", "u"] ∧
      ¬ (ResearchAgentModule.fetchedOf (ResearchAgentModule.forward (.ok oneResult)
        selU summNeutral scrapeOk 2)).Nodup := by
  decide

/-- C9: after the first summarization whose stance is decisive
(supports or refutes), nothing further happens in the invocation: that
summarization is the run's last, its block is the last evidence block
appended, and every page-selection call of the run led to a fetch (so
no further selection, fetch, or summarization followed the decisive
block). -/
theorem research_agent_early_exit (search : Except String (List SearchResult))
    (sel : Nat → PageSelection) (summ : Nat → SummaryResponse)
    (scrape : String → ScrapedPage) (maxPageVisits : Nat) (j : Nat)
    (hj : j < (ResearchAgentModule.traceOf (ResearchAgentModule.forward search sel
        summ scrape maxPageVisits)).sumCalls)
    (hdec : decisiveStance (summ j).evidence_stance = true) :
    j + 1 = (ResearchAgentModule.traceOf (ResearchAgentModule.forward search sel
        summ scrape maxPageVisits)).sumCalls ∧
      (ResearchAgentModule.traceOf (ResearchAgentModule.forward search sel summ
          scrape maxPageVisits)).selCalls =
        (ResearchAgentModule.traceOf (ResearchAgentModule.forward search sel summ
          scrape maxPageVisits)).fetched.length ∧
      ∃ u, (ResearchAgentModule.traceOf (ResearchAgentModule.forward search sel summ
          scrape maxPageVisits)).blocks.getLast? =
        some (EvidenceBlock.page u (summ j).evidence_stance
          (summ j).relevant_evidence) := by
  cases search with
  | error e =>
    simp [ResearchAgentModule.forward, ResearchAgentModule.traceOf, initTrace] at hj
  | ok results =>
    by_cases he : results.isEmpty
    · simp [ResearchAgentModule.forward, he, ResearchAgentModule.traceOf,
        initTrace] at hj
    · have hT : ResearchAgentModule.traceOf (ResearchAgentModule.forward
          (.ok results) sel summ scrape maxPageVisits) =
          ResearchAgentModule.researchLoop sel summ scrape maxPageVisits initTrace := by
        simp [ResearchAgentModule.forward, he, ResearchAgentModule.traceOf]
      rw [hT] at hj ⊢
      refine ResearchAgentModule.researchLoop_decisive sel summ scrape maxPageVisits
        initTrace ?_ rfl j hj hdec
      intro j2 hj2
      simp [initTrace] at hj2

/-- Witness for C9: a run whose first page already yields a supports
stance performs exactly one summarization, and its block closes the
evidence list. -/
theorem research_agent_early_exit_witness :
    (0 < (ResearchAgentModule.traceOf (ResearchAgentModule.forward (.ok oneResult)
          selU summSupports scrapeOk 3)).sumCalls ∧
        decisiveStance (summSupports 0).evidence_stance = true) ∧
      (0 + 1 = (ResearchAgentModule.traceOf (ResearchAgentModule.forward
          (.ok oneResult) selU summSupports scrapeOk 3)).sumCalls ∧
        (ResearchAgentModule.traceOf (ResearchAgentModule.forward (.ok oneResult)
            selU summSupports scrapeOk 3)).selCalls =
          (ResearchAgentModule.traceOf (ResearchAgentModule.forward (.ok oneResult)
            selU summSupports scrapeOk 3)).fetched.length ∧
        ∃ u, (ResearchAgentModule.traceOf (ResearchAgentModule.forward
            (.ok oneResult) selU summSupports scrapeOk 3)).blocks.getLast? =
          some (EvidenceBlock.page u (summSupports 0).evidence_stance
            (summSupports 0).relevant_evidence)) :=
  ⟨⟨by decide, by decide⟩,
    research_agent_early_exit (.ok oneResult) selU summSupports scrapeOk 3 0
      (by decide) (by decide)⟩

/-- Witness for C7: a concrete run returns duplicate-free
search_queries, and a round whose suggestion is already in the history
leaves the state untouched. -/
theorem fire_judge_search_dedup_witness :
    (FireJudgeModule.forward judgeRepeat researchStub "c" 3).result.search_queries.Nodup ∧
      ((judgeRepeat 1).next_search ∈ (["q"] : List String) ∧
        FireJudgeModule.fireStep judgeRepeat researchStub "c" 1 ⟨"e", ["q"], ["q"]⟩ =
          ⟨"e", ["q"], ["q"]⟩) := by
  refine ⟨(fire_judge_search_dedup judgeRepeat researchStub "c" 3).1.1, by decide, ?_⟩
  exact (fire_judge_search_dedup judgeRepeat researchStub "c" 3).2.1 1
    ⟨"e", ["q"], ["q"]⟩ (by decide)

/-- One entry of the `claim_verdicts` list of dicts handed to the
Aggregator (keys claim / verdict / evidence_summary). -/
structure ClaimVerdict where
  claim : String
  verdict : String
  evidence_summary : String
deriving Repr, DecidableEq

/-- Response of one Oracle aggregation call (`Aggregator` signature).
`confidence` is a float in the source; its value is only passed
through, so it is carried here as an opaque string. -/
structure AggOracleResponse where
  reasoning : String
  overall_verdict : String
  confidence : String
deriving Repr, DecidableEq

/-- The `dspy.Prediction` returned by `AggregatorModule.forward`. -/
structure AggPrediction where
  verdict : String
  confidence : String
  reasoning : String
  claim_details : List ClaimVerdict
deriving Repr, DecidableEq

namespace AggregatorModule

/-- `AggregatorModule.forward`: one Oracle aggregation call, whose
`overall_verdict`, `confidence` and `reasoning` are returned verbatim
(the source applies no priority rule of its own), with `claim_details`
echoing the input list. -/
def forward (aggregator : String → List ClaimVerdict → AggOracleResponse)
    (original_statement : String) (claim_verdicts : List ClaimVerdict) :
    AggPrediction :=
  ⟨(aggregator original_statement claim_verdicts).overall_verdict,
   (aggregator original_statement claim_verdicts).confidence,
   (aggregator original_statement claim_verdicts).reasoning,
   claim_verdicts⟩

end AggregatorModule

/-- Modelled from the spec: the fixed aggregation priority rule of
§4.4 — any refuted claim gives CONTAINS_REFUTED_CLAIMS, else any
not_supported claim gives CONTAINS_UNSUPPORTED_CLAIMS, else (including
the empty list) SUPPORTED.  This computation is absent from
`AggregatorModule.forward` in the source, which only restates it in its
docstring and in the Oracle prompt. -/
def specOverallVerdict (verdicts : List String) : String :=
  if verdicts.contains "refuted" then "CONTAINS_REFUTED_CLAIMS"
  else if verdicts.contains "not_supported" then "CONTAINS_UNSUPPORTED_CLAIMS"
  else "SUPPORTED"

/-- An aggregation Oracle that always answers SUPPORTED. -/
def aggOracleSup : String → List ClaimVerdict → AggOracleResponse :=
  fun _ _ => ⟨"looks fine", "SUPPORTED", "0.9"⟩

/-- C1: the Aggregator's overall_verdict is NOT computed by the fixed
priority rule — `AggregatorModule.forward` returns the Oracle's stated
verdict verbatim for every input, and on a judgment list containing a
refuted claim an Oracle that answers SUPPORTED makes the module return
SUPPORTED where the priority rule (and the module's own docstring)
requires CONTAINS_REFUTED_CLAIMS. -/
theorem aggregator_returns_oracle_verdict_verbatim :
    (∀ (aggregator : String → List ClaimVerdict → AggOracleResponse)
        (stmt : String) (cvs : List ClaimVerdict),
      (AggregatorModule.forward aggregator stmt cvs).verdict =
        (aggregator stmt cvs).overall_verdict) ∧
      ((AggregatorModule.forward aggOracleSup "s"
          [⟨"c", "refuted", "e"⟩]).verdict = "SUPPORTED" ∧
        specOverallVerdict (List.map ClaimVerdict.verdict
          [⟨"c", "refuted", "e"⟩]) = "CONTAINS_REFUTED_CLAIMS" ∧
        (AggregatorModule.forward aggOracleSup "s"
            [⟨"c", "refuted", "e"⟩]).verdict ≠
          specOverallVerdict (List.map ClaimVerdict.verdict
            [⟨"c", "refuted", "e"⟩])) := by
  refine ⟨fun aggregator stmt cvs => rfl, by decide, by decide, by decide⟩

/-- `FactCheckResult` dataclass from `data_types.py` (confidence is
carried opaquely, as in `AggOracleResponse`). -/
structure FactCheckResult where
  statement : String
  claims : List String
  claim_results : List JudgmentResult
  overall_verdict : String
  confidence : String
  reasoning : String
deriving Repr, DecidableEq

namespace FactCheckerPipeline

/-- `FactCheckerPipeline.forward`: extract claims, evaluate each claim
in order with the FIRE judge, aggregate.  `fire_judge` returns
`Except.error` when the judge raises (an Oracle failure); the
sequential `for` loop has no try/except, so `mapM` propagates the first
error and aborts the whole statement, exactly as the Python loop
does. -/
def forward (claim_extractor : String → List String)
    (fire_judge : String → Except String JudgmentResult)
    (aggregator : String → List ClaimVerdict → AggOracleResponse)
    (statement : String) : Except String FactCheckResult := do
  let claims := claim_extractor statement
  let claim_results ← claims.mapM fire_judge
  let claim_verdicts := claim_results.map
    (fun r => ClaimVerdict.mk r.claim r.verdict r.evidence_summary)
  let aggregation := AggregatorModule.forward aggregator statement claim_verdicts
  return ⟨statement, claims, claim_results, aggregation.verdict,
    aggregation.confidence, aggregation.reasoning⟩

/-- `mapM` over `Except` propagates the first error: if `f` succeeds on
every element of `l1` and fails on `c`, the traversal of
`l1 ++ c :: l2` fails with that error. -/
theorem mapM_error {α β : Type} (f : α → Except String β) (e : String) (c : α) :
    ∀ (l1 l2 : List α), (∀ a ∈ l1, ∃ r, f a = Except.ok r) →
      f c = Except.error e → (l1 ++ c :: l2).mapM f = Except.error e := by
  intro l1
  induction l1 with
  | nil =>
    intro l2 _ herr
    rw [List.nil_append, List.mapM_cons, herr]
    rfl
  | cons a l1 ih =>
    intro l2 hok herr
    obtain ⟨r, hr⟩ := hok a (List.mem_cons_self a l1)
    simp only [List.cons_append, List.mapM_cons, hr,
      ih l2 (fun a2 ha2 => hok a2 (List.mem_cons_of_mem a ha2)) herr]
    rfl

end FactCheckerPipeline

/-- An extractor returning the two claims "a" and "b". -/
def extractAB : String → List String := fun _ => ["a", "b"]

/-- A FIRE judge whose Oracle raises on claim "b" and succeeds on any
other claim. -/
def judgeFailsOnB : String → Except String JudgmentResult := fun c =>
  if c == "b" then Except.error "OracleError"
  else Except.ok ⟨c, "supported", "", [], 1⟩

/-- C2 (amended): the Pipeline catches nothing per claim — when the
judge raises an Oracle error for one claim of the extracted list (all
earlier claims having succeeded), `FactCheckerPipeline.forward`
propagates that error and produces no StatementResult at all; no
verdict "ERROR" is recorded anywhere in the pipeline. -/
theorem pipeline_claim_failure_aborts_run (claim_extractor : String → List String)
    (fire_judge : String → Except String JudgmentResult)
    (aggregator : String → List ClaimVerdict → AggOracleResponse)
    (statement e : String) (c : String) (l1 l2 : List String)
    (hsplit : claim_extractor statement = l1 ++ c :: l2)
    (hok : ∀ a ∈ l1, ∃ r, fire_judge a = Except.ok r)
    (herr : fire_judge c = Except.error e) :
    FactCheckerPipeline.forward claim_extractor fire_judge aggregator statement =
      Except.error e := by
  rw [FactCheckerPipeline.forward]
  rw [hsplit, FactCheckerPipeline.mapM_error fire_judge e c l1 l2 hok herr]
  rfl

/-- Witness for C2 (amended): claims ["a", "b"], judge succeeds on "a"
and raises on "b" — the whole statement run aborts with the error. -/
theorem pipeline_claim_failure_aborts_run_witness :
    (extractAB "s" = ["a"] ++ "b" :: [] ∧
        (∀ a ∈ (["a"] : List String), ∃ r, judgeFailsOnB a = Except.ok r) ∧
        judgeFailsOnB "b" = Except.error "OracleError") ∧
      FactCheckerPipeline.forward extractAB judgeFailsOnB aggOracleSup "s" =
        Except.error "OracleError" := by
  refine ⟨⟨by decide, ?_, rfl⟩, ?_⟩
  · intro a ha
    simp only [List.mem_singleton] at ha
    subst ha
    exact ⟨⟨"a", "supported", "", [], 1⟩, rfl⟩
  · refine pipeline_claim_failure_aborts_run extractAB judgeFailsOnB aggOracleSup
      "s" "OracleError" "b" ["a"] [] (by decide) ?_ rfl
    intro a ha
    simp only [List.mem_singleton] at ha
    subst ha
    exact ⟨⟨"a", "supported", "", [], 1⟩, rfl⟩

/-- Counterexample to C2 as stated: with claims ["a", "b"] and an
Oracle failure on claim "a", the Pipeline neither records verdict
"ERROR" nor returns a StatementResult — the run aborts with the error
before claim "b" is ever evaluated. -/
theorem pipeline_no_error_verdict_recorded :
    FactCheckerPipeline.forward (fun _ => ["a", "b"])
        (fun c => if c == "a" then Except.error "OracleError"
          else Except.ok ⟨c, "supported", "", [], 1⟩) aggOracleSup "s" =
      Except.error "OracleError" := rfl

end FactChecker
